import Mathlib

/-!
Verification of the housify price-prediction function.

This file embeds the `predict-price` serverless function (the `serve` handler and
`calculateBasePriceFromArea`) and the client-side `handleSubmit` validation of
`PricePrediction.tsx`, and proves or refutes the specification's claims about them.

Modelling conventions:
* JSON numbers are modelled as integers (every number this code produces is an integer,
  and the city multipliers, the only non-integer constants, are scaled to tenths).
* JS `Math.round x` for non-negative `x` is `floor (x + 1/2)`; with the tenths scaling,
  `Math.round (n / 10)` on naturals is `(n + 5) / 10`, and `Math.round (b * p / 100)`
  for a percentage `p` is `(b * p + 50) / 100`.
* The request body's `area` is modelled after the handler's `parseInt` as a natural
  number (the shipped client posts a numeric string); `amenities = none` models an
  absent or non-array value, on which the handler's `.join` call throws.
* The outcome of the outbound model call is an explicit datum, and `JSON.parse` of the
  reply content is modelled by its result (`none` = the content is not parseable).
-/

namespace Housify

/-- JSON values, with numbers as integers (see the file comment). -/
inductive Json where
  | null : Json
  | bool (b : Bool) : Json
  | num (n : Int) : Json
  | str (s : String) : Json
  | arr (elems : List Json) : Json
  | obj (fields : List (String × Json)) : Json

/-- JS property access `j.k`: a field lookup that is `undefined` (`none`) on missing
fields and on non-object values. (On `null` the real access throws, but the throw lands
in the same outer catch as the failed validation, so the handler's response agrees.) -/
def getField : Json → String → Option Json
  | .obj fields, k => fields.lookup k
  | _, _ => none

/-- JS truthiness of a JSON value: null, false, 0 and the empty string are falsy. -/
def jsTruthy : Json → Bool
  | .null => false
  | .bool b => b
  | .num n => n != 0
  | .str s => s != ""
  | .arr _ => true
  | .obj _ => true

/-- JS truthiness of a possibly-undefined value: `undefined` is falsy. -/
def jsTruthyOpt : Option Json → Bool
  | none => false
  | some j => jsTruthy j

/-- JS `Math.round (n / 10)` for a natural numerator `n` (floor of `n/10 + 1/2`). -/
def jsRoundDiv10 (n : Nat) : Nat := (n + 5) / 10

/-- JS `Math.round (b * p / 100)` for naturals: the code's `Math.round(basePrice * 0.85)`
is `jsRoundPct basePrice 85`, and so on. -/
def jsRoundPct (b p : Nat) : Nat := (b * p + 50) / 100

/-- Base price per sq ft by property type (`baseRates` in the source). -/
def baseRates : List (String × Nat) :=
  [("apartment", 200), ("house", 250), ("villa", 400), ("penthouse", 500), ("studio", 300)]

/-- City multipliers (`cityMultipliers` in the source), scaled to tenths:
3.5 becomes 35, ..., 1.2 becomes 12. -/
def cityMultipliers10 : List (String × Nat) :=
  [("new york", 35), ("san francisco", 30), ("los angeles", 25), ("seattle", 22),
   ("boston", 20), ("miami", 18), ("chicago", 15), ("austin", 14), ("denver", 13),
   ("atlanta", 12)]

/-- JS `String.prototype.toLowerCase`, character-wise (applied to the city name below;
the city keys are ASCII, where lowering is per-character). -/
def jsToLower (s : String) : String := ⟨s.data.map Char.toLower⟩

/-- The fallback price calculation (source lines 188-221):
`Math.round(area * (baseRates[propertyType] || 250) * (cityMultipliers[city.toLowerCase()] || 1.0))`.
The `state` argument is accepted and ignored, exactly as in the source. The `|| default`
reads are lookup-with-default (every table value is truthy). -/
def calculateBasePriceFromArea (area : Nat) (city : String) (_state : String)
    (propertyType : String) : Nat :=
  let baseRate := (baseRates.lookup propertyType).getD 250
  let cityMultiplier := (cityMultipliers10.lookup (jsToLower city)).getD 10
  jsRoundDiv10 (area * baseRate * cityMultiplier)

/-- The JSON request body the handler reads (`propertyData`). Text fields arrive as
strings from the client form; optional fields may be absent. -/
structure RequestBody where
  propertyType : String
  bedrooms : String
  bathrooms : String
  area : Nat
  address : Option String
  city : String
  state : String
  zipcode : Option String
  yearBuilt : Option Int
  parkingSpaces : Option Int
  furnished : Bool
  petFriendly : Bool
  amenities : Option (List String)
  deriving DecidableEq

/-- Rendering of `${x || 'Not provided'}` for an optional string field
(JS: `undefined` and the empty string are falsy). -/
def renderOptStr : Option String → String
  | none => "Not provided"
  | some s => if s == "" then "Not provided" else s

/-- Rendering of `${x || 'Not provided'}` for an optional numeric field
(JS: `undefined` and 0 are falsy). -/
def renderOptNum : Option Int → String
  | none => "Not provided"
  | some n => if n == 0 then "Not provided" else toString n

/-- Rendering of `${amenities.join(', ') || 'None specified'}`. -/
def renderAmenities (am : List String) : String :=
  let joined := String.intercalate ", " am
  if joined == "" then "None specified" else joined

/-- The prompt template (source lines 23-73) as its list of lines; the source builds the
single string joined by newlines (`prompt` below). Literal braces of the embedded JSON
schema are written with hexadecimal escapes. -/
def promptLines (d : RequestBody) (am : List String) : List String :=
  [ "",
    "You are a real estate price prediction AI expert. Analyze the following property data and provide an accurate price estimate.",
    "",
    "Property Details:",
    "- Type: " ++ d.propertyType,
    "- Bedrooms: " ++ d.bedrooms,
    "- Bathrooms: " ++ d.bathrooms,
    "- Area: " ++ toString d.area ++ " sq ft",
    "- Location: " ++ d.city ++ ", " ++ d.state,
    "- ZIP Code: " ++ renderOptStr d.zipcode,
    "- Year Built: " ++ renderOptNum d.yearBuilt,
    "- Parking Spaces: " ++ renderOptNum d.parkingSpaces,
    "- Furnished: " ++ (if d.furnished then "Yes" else "No"),
    "- Pet Friendly: " ++ (if d.petFriendly then "Yes" else "No"),
    "- Amenities: " ++ renderAmenities am,
    "",
    "Based on current market data and property analysis, provide:",
    "",
    "1. Estimated market value (realistic price for current market)",
    "2. Price range (min and max)",
    "3. Confidence percentage (based on data completeness and market conditions)",
    "4. Factor scores (0-100) for: location, size, bedrooms, bathrooms, amenities, market",
    "5. 3 comparable properties with prices, distances, and similarity percentages",
    "",
    "Respond in JSON format only:",
    "\x7b",
    "  \"estimatedPrice\": number,",
    "  \"priceRange\": \x7b",
    "    \"min\": number,",
    "    \"max\": number",
    "  \x7d,",
    "  \"confidence\": number (70-95),",
    "  \"factors\": \x7b",
    "    \"location\": number (0-100),",
    "    \"size\": number (0-100),",
    "    \"bedrooms\": number (0-100),",
    "    \"bathrooms\": number (0-100),",
    "    \"amenities\": number (0-100),",
    "    \"market\": number (0-100)",
    "  \x7d,",
    "  \"comparableProperties\": [",
    "    \x7b",
    "      \"price\": number,",
    "      \"distance\": \"X.X miles\",",
    "      \"similarity\": number (75-95)",
    "    \x7d",
    "  ]",
    "\x7d",
    "",
    "Consider current market trends, location desirability, property features, and recent sales data for similar properties.",
    "" ]

/-- The prompt as the single string the source builds. -/
def prompt (d : RequestBody) (am : List String) : String :=
  String.intercalate "\n" (promptLines d am)

/-- One synthesized comparable property of the fallback prediction. -/
structure Comparable where
  price : Nat
  distance : String
  similarity : Nat
  deriving DecidableEq

/-- The fixed factor-score block of the fallback prediction. -/
structure Factors where
  location : Nat
  size : Nat
  bedrooms : Nat
  bathrooms : Nat
  amenities : Nat
  market : Nat
  deriving DecidableEq

/-- The shape of the fallback prediction object (source lines 128-148). -/
structure Prediction where
  estimatedPrice : Nat
  priceRangeMin : Nat
  priceRangeMax : Nat
  confidence : Nat
  factors : Factors
  comparableProperties : List Comparable
  deriving DecidableEq

/-- The six factor scores as a list, for stating the range invariant. -/
def factorScores (f : Factors) : List Nat :=
  [f.location, f.size, f.bedrooms, f.bathrooms, f.amenities, f.market]

/-- The fallback prediction built when `JSON.parse` of the model reply fails
(source lines 120-148). -/
def fallbackPrediction (d : RequestBody) : Prediction :=
  let basePrice := calculateBasePriceFromArea d.area d.city d.state d.propertyType
  { estimatedPrice := basePrice
    priceRangeMin := jsRoundPct basePrice 85
    priceRangeMax := jsRoundPct basePrice 115
    confidence := 75
    factors :=
      { location := 80, size := 85, bedrooms := 75, bathrooms := 75,
        amenities := 70, market := 80 }
    comparableProperties :=
      [ { price := jsRoundPct basePrice 95, distance := "0.5 miles", similarity := 92 },
        { price := jsRoundPct basePrice 108, distance := "0.8 miles", similarity := 88 },
        { price := jsRoundPct basePrice 92, distance := "1.2 miles", similarity := 85 } ] }

/-- The factor block as the JSON object literal of the source. -/
def factorsToJson (f : Factors) : Json :=
  .obj [("location", .num (f.location : Int)), ("size", .num (f.size : Int)),
        ("bedrooms", .num (f.bedrooms : Int)), ("bathrooms", .num (f.bathrooms : Int)),
        ("amenities", .num (f.amenities : Int)), ("market", .num (f.market : Int))]

/-- One comparable as the JSON object literal of the source. -/
def comparableToJson (c : Comparable) : Json :=
  .obj [("price", .num (c.price : Int)), ("distance", .str c.distance),
        ("similarity", .num (c.similarity : Int))]

/-- The fallback prediction as the JSON value assigned to `prediction` in the source. -/
def predictionToJson (p : Prediction) : Json :=
  .obj [("estimatedPrice", .num (p.estimatedPrice : Int)),
        ("priceRange", .obj [("min", .num (p.priceRangeMin : Int)),
                             ("max", .num (p.priceRangeMax : Int))]),
        ("confidence", .num (p.confidence : Int)),
        ("factors", factorsToJson p.factors),
        ("comparableProperties", .arr (p.comparableProperties.map comparableToJson))]

/-- Outcome of the outbound chat-completion call, as observed by the handler:
a rejected fetch (network/transport error), a response with `ok` false (non-success
status), a success response whose envelope is missing `choices[0].message`, or a
success whose `choices[0].message.content` has the given `JSON.parse` result
(`none` when the content is not parseable as JSON). -/
inductive RemoteOutcome where
  | fetchError : RemoteOutcome
  | httpError (status : Nat) : RemoteOutcome
  | badShape : RemoteOutcome
  | content (parsed : Option Json) : RemoteOutcome

/-- The HTTP response of the handler: the 200 response carrying `{ prediction }`, or
the 500 response carrying the error body (`'Failed to generate price prediction'`). -/
inductive HandlerResult where
  | ok (prediction : Json) : HandlerResult
  | err500 : HandlerResult

/-- The serve handler (source lines 11-185) on a POST body, as a function of the parsed
request body and the remote-call outcome. Control flow of the source: the prompt is
built first, and `propertyData.amenities.join` throws to the outer catch (500 response)
when `amenities` is absent; a fetch rejection, a non-ok status, and a malformed response
envelope each throw to the outer catch as well; when `JSON.parse` of the reply content
throws, `prediction` is replaced by the fallback; finally the structure validation
throws (500) unless `estimatedPrice`, `priceRange` and `factors` are all truthy. -/
def handler (d : RequestBody) (remote : RemoteOutcome) : HandlerResult :=
  match d.amenities with
  | none => .err500
  | some _ =>
    match remote with
    | .fetchError => .err500
    | .httpError _ => .err500
    | .badShape => .err500
    | .content parsed =>
      let prediction :=
        match parsed with
        | some j => j
        | none => predictionToJson (fallbackPrediction d)
      if jsTruthyOpt (getField prediction "estimatedPrice")
          && jsTruthyOpt (getField prediction "priceRange")
          && jsTruthyOpt (getField prediction "factors") then
        .ok prediction
      else
        .err500

/-- The PricePrediction form state (`formData` in PricePrediction.tsx): every text
field is a string, initialized and reset to the empty string. -/
structure FormData where
  propertyType : String
  bedrooms : String
  bathrooms : String
  area : String
  address : String
  city : String
  state : String
  zipcode : String
  yearBuilt : String
  parkingSpaces : String
  furnished : Bool
  petFriendly : Bool
  amenities : List String
  deriving DecidableEq

/-- What `handleSubmit` does: show the destructive "Missing information" toast and
return without any invocation, or invoke the `predict-price` function with the form. -/
inductive SubmitAction where
  | missingInfoToast : SubmitAction
  | invokePredictPrice (body : FormData) : SubmitAction
  deriving DecidableEq

/-- The `handleSubmit` validation (PricePrediction.tsx lines 87-107): JS `!s` on a
string is true exactly when the string is empty, so the six required fields are checked
for emptiness before `supabase.functions.invoke` is reached. -/
def handleSubmit (f : FormData) : SubmitAction :=
  if f.propertyType == "" || f.bedrooms == "" || f.bathrooms == ""
      || f.area == "" || f.city == "" || f.state == "" then
    .missingInfoToast
  else
    .invokePredictPrice f

/-! Concrete inputs used by counterexamples and witnesses. -/

/-- A valid request body: a 2000 sq ft villa in Miami, with an address provided. -/
def villaMiami : RequestBody :=
  { propertyType := "villa", bedrooms := "4", bathrooms := "3", area := 2000,
    address := some "123 Main Street", city := "Miami", state := "FL",
    zipcode := some "33101", yearBuilt := some 2018, parkingSpaces := some 2,
    furnished := false, petFriendly := true,
    amenities := some ["Swimming Pool", "Garden"] }

/-- A valid request body with an unrecognized type and city. -/
def unknownNowhere : RequestBody :=
  { propertyType := "unknown-type", bedrooms := "2", bathrooms := "1", area := 1000,
    address := none, city := "Nowhereville", state := "ZZ",
    zipcode := none, yearBuilt := none, parkingSpaces := none,
    furnished := false, petFriendly := false, amenities := some [] }

/-- A parsed model reply that is a JSON object missing `priceRange`. -/
def jsonMissingPriceRange : Json :=
  .obj [("estimatedPrice", .num 500000), ("factors", .obj [("location", .num 80)])]

/-- A parsed model reply passing the handler's truthiness validation while violating
every numeric invariant: negative price, non-object range, no comparables. -/
def jsonBadPrediction : Json :=
  .obj [("estimatedPrice", .num (-1)), ("priceRange", .num 7), ("factors", .num 3)]

/-! Helper lemmas. -/

/-- Every base rate, looked up or defaulted, is at least 200. -/
theorem baseRate_ge (t : String) : 200 ≤ (baseRates.lookup t).getD 250 := by
  simp only [baseRates, List.lookup]
  repeat' split
  all_goals simp

/-- Every city multiplier (in tenths), looked up or defaulted, is at least 10. -/
theorem cityMultiplier10_ge (c : String) : 10 ≤ (cityMultipliers10.lookup c).getD 10 := by
  simp only [cityMultipliers10, List.lookup]
  repeat' split
  all_goals simp

/-- For a positive area the fallback base price is at least 200. -/
theorem basePrice_ge (d : RequestBody) (ha : 1 ≤ d.area) :
    200 ≤ calculateBasePriceFromArea d.area d.city d.state d.propertyType := by
  have hr := baseRate_ge d.propertyType
  have hc := cityMultiplier10_ge (jsToLower d.city)
  have hx : 2000 ≤ d.area * (baseRates.lookup d.propertyType).getD 250
      * (cityMultipliers10.lookup (jsToLower d.city)).getD 10 := by
    calc 2000 = 1 * 200 * 10 := by norm_num
    _ ≤ _ := Nat.mul_le_mul (Nat.mul_le_mul ha hr) hc
  show 200 ≤ (d.area * (baseRates.lookup d.propertyType).getD 250
      * (cityMultipliers10.lookup (jsToLower d.city)).getD 10 + 5) / 10
  omega

/-! Claim theorems. -/

/-- C1 is false on the code: with a concrete valid body, a rejected fetch and a
non-success HTTP status each make the handler throw to its outer catch and answer the
500 error response — which is not the fallback estimate. -/
theorem remote_failure_not_absorbed_cex :
    handler villaMiami RemoteOutcome.fetchError = HandlerResult.err500 ∧
    handler villaMiami (RemoteOutcome.httpError 500) = HandlerResult.err500 ∧
    HandlerResult.err500 ≠ HandlerResult.ok (predictionToJson (fallbackPrediction villaMiami)) :=
  ⟨rfl, rfl, by simp⟩

/-- C1 amended: every failure of the remote call — a rejected fetch (network/transport
error), a non-success HTTP status, or a malformed response envelope — is answered with
the 500 error response; the fallback heuristic is not reached on this path. -/
theorem remote_failure_returns_error_response (d : RequestBody) (s : Nat) :
    handler d RemoteOutcome.fetchError = HandlerResult.err500 ∧
    handler d (RemoteOutcome.httpError s) = HandlerResult.err500 ∧
    handler d RemoteOutcome.badShape = HandlerResult.err500 := by
  cases hd : d.amenities <;> simp [handler, hd]

/-- C2 is false on the code: a reply that parses as JSON but lacks `priceRange` makes
the structure validation throw, so the caller gets the 500 error response, not the
fallback estimate. -/
theorem missing_subfield_not_fallback_cex :
    handler villaMiami (RemoteOutcome.content (some jsonMissingPriceRange))
      = HandlerResult.err500 ∧
    HandlerResult.err500 ≠ HandlerResult.ok (predictionToJson (fallbackPrediction villaMiami)) :=
  ⟨rfl, by simp⟩

/-- C2 amended: a parsed reply in which any of `estimatedPrice`, `priceRange` or
`factors` is missing or falsy is answered with the 500 error response ("Invalid
prediction structure") — it is not routed to the fallback, and no partially-populated
result is returned either. -/
theorem missing_subfield_returns_error_response (d : RequestBody) (am : List String)
    (j : Json) (hm : d.amenities = some am)
    (hsub : jsTruthyOpt (getField j "estimatedPrice") = false
      ∨ jsTruthyOpt (getField j "priceRange") = false
      ∨ jsTruthyOpt (getField j "factors") = false) :
    handler d (RemoteOutcome.content (some j)) = HandlerResult.err500 := by
  rcases hsub with h | h | h <;> simp [handler, hm, h]

/-- C2 witness: the amended statement applied to a concrete body and a reply that lacks
`priceRange`. -/
theorem missing_subfield_returns_error_response_witness :
    villaMiami.amenities = some ["Swimming Pool", "Garden"] ∧
    (jsTruthyOpt (getField jsonMissingPriceRange "estimatedPrice") = false
      ∨ jsTruthyOpt (getField jsonMissingPriceRange "priceRange") = false
      ∨ jsTruthyOpt (getField jsonMissingPriceRange "factors") = false) ∧
    handler villaMiami (RemoteOutcome.content (some jsonMissingPriceRange))
      = HandlerResult.err500 :=
  ⟨rfl, Or.inr (Or.inl rfl),
    missing_subfield_returns_error_response villaMiami ["Swimming Pool", "Garden"]
      jsonMissingPriceRange rfl (Or.inr (Or.inl rfl))⟩

/-- C3 is false on the code: a parsed reply whose three checked fields are merely truthy
is returned to the caller unvalidated — here with estimatedPrice -1 (not positive), a
plain number as `priceRange` (no min/max), and no comparableProperties at all. -/
theorem invariants_not_enforced_on_remote_path_cex :
    handler villaMiami (RemoteOutcome.content (some jsonBadPrediction))
      = HandlerResult.ok jsonBadPrediction ∧
    getField jsonBadPrediction "estimatedPrice" = some (Json.num (-1)) ∧
    getField jsonBadPrediction "comparableProperties" = none :=
  ⟨rfl, rfl, rfl⟩

/-- C3 amended: the PriceEstimate invariants all hold for the estimate produced by the
fallback path, for every body with a positive area: estimatedPrice > 0,
min ≤ estimatedPrice ≤ max, confidence in [0,100], every factor score in [0,100]
(scores are naturals, hence at least 0), and exactly 3 comparables with similarity in
[0,100]. The remote path checks only presence/truthiness of three fields. -/
theorem fallback_estimate_invariants (d : RequestBody) (ha : 1 ≤ d.area) :
    0 < (fallbackPrediction d).estimatedPrice ∧
    (fallbackPrediction d).priceRangeMin ≤ (fallbackPrediction d).estimatedPrice ∧
    (fallbackPrediction d).estimatedPrice ≤ (fallbackPrediction d).priceRangeMax ∧
    (fallbackPrediction d).confidence ≤ 100 ∧
    (∀ s ∈ factorScores (fallbackPrediction d).factors, s ≤ 100) ∧
    (fallbackPrediction d).comparableProperties.length = 3 ∧
    (∀ c ∈ (fallbackPrediction d).comparableProperties, c.similarity ≤ 100) := by
  have hb := basePrice_ge d ha
  refine ⟨?_, ?_, ?_, ?_, ?_, rfl, ?_⟩ <;>
    simp only [fallbackPrediction, jsRoundPct, factorScores]
  · omega
  · omega
  · omega
  · norm_num
  · intro s hs
    simp only [List.mem_cons, List.not_mem_nil, or_false] at hs
    rcases hs with h | h | h | h | h | h <;> subst h <;> norm_num
  · intro c hc
    simp only [List.mem_cons, List.not_mem_nil, or_false] at hc
    rcases hc with h | h | h <;> subst h <;> norm_num

/-- C3 witness: the amended invariants at the concrete villa body. -/
theorem fallback_estimate_invariants_witness :
    1 ≤ villaMiami.area ∧
    (0 < (fallbackPrediction villaMiami).estimatedPrice ∧
      (fallbackPrediction villaMiami).priceRangeMin ≤ (fallbackPrediction villaMiami).estimatedPrice ∧
      (fallbackPrediction villaMiami).estimatedPrice ≤ (fallbackPrediction villaMiami).priceRangeMax ∧
      (fallbackPrediction villaMiami).confidence ≤ 100 ∧
      (∀ s ∈ factorScores (fallbackPrediction villaMiami).factors, s ≤ 100) ∧
      (fallbackPrediction villaMiami).comparableProperties.length = 3 ∧
      (∀ c ∈ (fallbackPrediction villaMiami).comparableProperties, c.similarity ≤ 100)) :=
  ⟨by decide, fallback_estimate_invariants villaMiami (by decide)⟩

/-- C4: a submitted form in which any of the six required fields is empty (JS falsiness
of the form's string values) is answered by the destructive "Missing information" toast
— the MissingRequiredField rejection — and `handleSubmit` returns before reaching
`supabase.functions.invoke`: no remote call is made and no field is defaulted. -/
theorem missing_required_field_rejected (f : FormData)
    (h : f.propertyType = "" ∨ f.bedrooms = "" ∨ f.bathrooms = ""
        ∨ f.area = "" ∨ f.city = "" ∨ f.state = "") :
    handleSubmit f = SubmitAction.missingInfoToast := by
  rcases h with h | h | h | h | h | h <;> simp [handleSubmit, h]

/-- A form with everything filled except the required city. -/
def missingCityForm : FormData :=
  { propertyType := "villa", bedrooms := "4", bathrooms := "3", area := "2000",
    address := "456 Oak Avenue", city := "", state := "FL", zipcode := "33101",
    yearBuilt := "2018", parkingSpaces := "2", furnished := false, petFriendly := true,
    amenities := ["Garden"] }

/-- C4 witness: the rejection at a concrete form missing only the city. -/
theorem missing_required_field_rejected_witness :
    (missingCityForm.propertyType = "" ∨ missingCityForm.bedrooms = ""
      ∨ missingCityForm.bathrooms = "" ∨ missingCityForm.area = ""
      ∨ missingCityForm.city = "" ∨ missingCityForm.state = "") ∧
    handleSubmit missingCityForm = SubmitAction.missingInfoToast :=
  ⟨by decide, missing_required_field_rejected missingCityForm (by decide)⟩

/-- C5: when the remote call succeeds but its content fails `JSON.parse`, the handler
silently answers 200 with exactly the fallback heuristic's prediction. The hypotheses
are those of the scenario: the body has an amenities array (otherwise no remote reply
ever exists) and a positive area (as in every valid input). -/
theorem unparseable_content_falls_back (d : RequestBody) (am : List String)
    (hm : d.amenities = some am) (ha : 1 ≤ d.area) :
    handler d (RemoteOutcome.content none)
      = HandlerResult.ok (predictionToJson (fallbackPrediction d)) := by
  have hb := basePrice_ge d ha
  have hep : (fallbackPrediction d).estimatedPrice
      = calculateBasePriceFromArea d.area d.city d.state d.propertyType := rfl
  have h1 : getField (predictionToJson (fallbackPrediction d)) "estimatedPrice"
      = some (Json.num ((fallbackPrediction d).estimatedPrice : Int)) := rfl
  have h2 : jsTruthyOpt (getField (predictionToJson (fallbackPrediction d)) "priceRange")
      = true := rfl
  have h3 : jsTruthyOpt (getField (predictionToJson (fallbackPrediction d)) "factors")
      = true := rfl
  have hne : (((fallbackPrediction d).estimatedPrice : Int) != 0) = true := by
    simp [hep]
    omega
  have hT1 : jsTruthyOpt (getField (predictionToJson (fallbackPrediction d)) "estimatedPrice")
      = true := by
    rw [h1]
    simpa [jsTruthyOpt, jsTruthy] using hne
  simp [handler, hm, hT1, h2, h3]

/-- C5 witness: the fallback reply at the concrete villa body. -/
theorem unparseable_content_falls_back_witness :
    villaMiami.amenities = some ["Swimming Pool", "Garden"] ∧ 1 ≤ villaMiami.area ∧
    handler villaMiami (RemoteOutcome.content none)
      = HandlerResult.ok (predictionToJson (fallbackPrediction villaMiami)) :=
  ⟨rfl, by decide,
    unparseable_content_falls_back villaMiami ["Swimming Pool", "Garden"] rfl (by decide)⟩

/-- C6: the fallback heuristic computes
estimatedPrice = round(area × rate(type) × multiplier(lowercased city)) with the claimed
rate table (default 250) and city table (Miami 1.8, default 1.0 — multipliers scaled to
tenths here), range min/max = round(base × 0.85 / 1.15), confidence 75; a 2000 sqft
villa in Miami yields 1,440,000 with range 1,224,000-1,656,000, and an unknown-type
1000 sqft property in Nowhereville yields 250,000. -/
theorem fallback_formula_and_scenarios :
    (∀ t : String, t ∉ ["apartment", "house", "villa", "penthouse", "studio"] →
        (baseRates.lookup t).getD 250 = 250) ∧
    (∀ c : String, c ∉ ["new york", "san francisco", "los angeles", "seattle", "boston",
        "miami", "chicago", "austin", "denver", "atlanta"] →
        (cityMultipliers10.lookup c).getD 10 = 10) ∧
    baseRates = [("apartment", 200), ("house", 250), ("villa", 400),
      ("penthouse", 500), ("studio", 300)] ∧
    cityMultipliers10.lookup "miami" = some 18 ∧
    (∀ d : RequestBody,
        (fallbackPrediction d).estimatedPrice
          = jsRoundDiv10 (d.area * (baseRates.lookup d.propertyType).getD 250
              * (cityMultipliers10.lookup (jsToLower d.city)).getD 10) ∧
        (fallbackPrediction d).priceRangeMin
          = jsRoundPct (fallbackPrediction d).estimatedPrice 85 ∧
        (fallbackPrediction d).priceRangeMax
          = jsRoundPct (fallbackPrediction d).estimatedPrice 115 ∧
        (fallbackPrediction d).confidence = 75) ∧
    (fallbackPrediction villaMiami).estimatedPrice = 1440000 ∧
    (fallbackPrediction villaMiami).priceRangeMin = 1224000 ∧
    (fallbackPrediction villaMiami).priceRangeMax = 1656000 ∧
    (fallbackPrediction villaMiami).confidence = 75 ∧
    (fallbackPrediction unknownNowhere).estimatedPrice = 250000 := by
  refine ⟨?_, ?_, rfl, rfl, fun d => ⟨rfl, rfl, rfl, rfl⟩, rfl, rfl, rfl, rfl, rfl⟩
  · intro t ht
    simp only [List.mem_cons, List.not_mem_nil, or_false, not_or] at ht
    obtain ⟨h1, h2, h3, h4, h5⟩ := ht
    have e1 : (t == "apartment") = false := beq_eq_false_iff_ne.mpr h1
    have e2 : (t == "house") = false := beq_eq_false_iff_ne.mpr h2
    have e3 : (t == "villa") = false := beq_eq_false_iff_ne.mpr h3
    have e4 : (t == "penthouse") = false := beq_eq_false_iff_ne.mpr h4
    have e5 : (t == "studio") = false := beq_eq_false_iff_ne.mpr h5
    simp [baseRates, List.lookup, e1, e2, e3, e4, e5]
  · intro c hc
    simp only [List.mem_cons, List.not_mem_nil, or_false, not_or] at hc
    obtain ⟨h1, h2, h3, h4, h5, h6, h7, h8, h9, h10⟩ := hc
    have e1 : (c == "new york") = false := beq_eq_false_iff_ne.mpr h1
    have e2 : (c == "san francisco") = false := beq_eq_false_iff_ne.mpr h2
    have e3 : (c == "los angeles") = false := beq_eq_false_iff_ne.mpr h3
    have e4 : (c == "seattle") = false := beq_eq_false_iff_ne.mpr h4
    have e5 : (c == "boston") = false := beq_eq_false_iff_ne.mpr h5
    have e6 : (c == "miami") = false := beq_eq_false_iff_ne.mpr h6
    have e7 : (c == "chicago") = false := beq_eq_false_iff_ne.mpr h7
    have e8 : (c == "austin") = false := beq_eq_false_iff_ne.mpr h8
    have e9 : (c == "denver") = false := beq_eq_false_iff_ne.mpr h9
    have e10 : (c == "atlanta") = false := beq_eq_false_iff_ne.mpr h10
    simp [cityMultipliers10, List.lookup, e1, e2, e3, e4, e5, e6, e7, e8, e9, e10]

/-- C6 witness: the defaulting conjuncts applied at the unrecognized type and city. -/
theorem fallback_formula_and_scenarios_witness :
    ("unknown-type" ∉ ["apartment", "house", "villa", "penthouse", "studio"] ∧
      (baseRates.lookup "unknown-type").getD 250 = 250) ∧
    ("nowhereville" ∉ ["new york", "san francisco", "los angeles", "seattle", "boston",
        "miami", "chicago", "austin", "denver", "atlanta"] ∧
      (cityMultipliers10.lookup "nowhereville").getD 10 = 10) :=
  ⟨⟨by decide, fallback_formula_and_scenarios.1 "unknown-type" (by decide)⟩,
   ⟨by decide, fallback_formula_and_scenarios.2.1 "nowhereville" (by decide)⟩⟩

/-- C7: the fallback path is a pure function — identical inputs produce identical
estimates — and its three synthesized comparables are exactly the base price scaled by
0.95, 1.08 and 0.92 with the fixed distances and similarities. -/
theorem fallback_deterministic (d1 d2 : RequestBody) (h : d1 = d2) :
    fallbackPrediction d1 = fallbackPrediction d2 ∧
    (fallbackPrediction d1).comparableProperties =
      [ { price := jsRoundPct (calculateBasePriceFromArea d1.area d1.city d1.state d1.propertyType) 95,
          distance := "0.5 miles", similarity := 92 },
        { price := jsRoundPct (calculateBasePriceFromArea d1.area d1.city d1.state d1.propertyType) 108,
          distance := "0.8 miles", similarity := 88 },
        { price := jsRoundPct (calculateBasePriceFromArea d1.area d1.city d1.state d1.propertyType) 92,
          distance := "1.2 miles", similarity := 85 } ] := by
  subst h
  exact ⟨rfl, rfl⟩

/-- C7 witness: determinism and the comparables at the concrete villa body. -/
theorem fallback_deterministic_witness :
    villaMiami = villaMiami ∧
    (fallbackPrediction villaMiami = fallbackPrediction villaMiami ∧
      (fallbackPrediction villaMiami).comparableProperties =
        [ { price := jsRoundPct (calculateBasePriceFromArea villaMiami.area villaMiami.city villaMiami.state villaMiami.propertyType) 95,
            distance := "0.5 miles", similarity := 92 },
          { price := jsRoundPct (calculateBasePriceFromArea villaMiami.area villaMiami.city villaMiami.state villaMiami.propertyType) 108,
            distance := "0.8 miles", similarity := 88 },
          { price := jsRoundPct (calculateBasePriceFromArea villaMiami.area villaMiami.city villaMiami.state villaMiami.propertyType) 92,
            distance := "1.2 miles", similarity := 85 } ]) :=
  ⟨rfl, fallback_deterministic villaMiami villaMiami rfl⟩

/-- C8 is false on the code: the address is not embedded in the prompt at all — with
the address provided the prompt is identical, line for line, to the prompt built from
the same body with no address (so a provided address is neither included nor replaced
by a "not provided" placeholder). -/
theorem address_not_in_prompt_cex :
    villaMiami.address = some "123 Main Street" ∧
    promptLines villaMiami ["Swimming Pool", "Garden"]
      = promptLines { villaMiami with address := none } ["Swimming Pool", "Garden"] ∧
    prompt villaMiami ["Swimming Pool", "Garden"]
      = prompt { villaMiami with address := none } ["Swimming Pool", "Garden"] :=
  ⟨rfl, rfl, rfl⟩

/-- C8 amended: the prompt embeds every PropertyDescription field except the address —
changing the address never changes the prompt — with the missing optional fields among
zipcode, yearBuilt and parkingSpaces rendered by the explicit "Not provided"
placeholder, and each embedded field on its dedicated line. -/
theorem prompt_embeds_fields_except_address (d : RequestBody) (am : List String) :
    (∀ a : Option String, promptLines { d with address := a } am = promptLines d am) ∧
    renderOptStr none = "Not provided" ∧
    renderOptNum none = "Not provided" ∧
    ("- Type: " ++ d.propertyType) ∈ promptLines d am ∧
    ("- Bedrooms: " ++ d.bedrooms) ∈ promptLines d am ∧
    ("- Bathrooms: " ++ d.bathrooms) ∈ promptLines d am ∧
    ("- Area: " ++ toString d.area ++ " sq ft") ∈ promptLines d am ∧
    ("- Location: " ++ d.city ++ ", " ++ d.state) ∈ promptLines d am ∧
    ("- ZIP Code: " ++ renderOptStr d.zipcode) ∈ promptLines d am ∧
    ("- Year Built: " ++ renderOptNum d.yearBuilt) ∈ promptLines d am ∧
    ("- Parking Spaces: " ++ renderOptNum d.parkingSpaces) ∈ promptLines d am ∧
    ("- Furnished: " ++ (if d.furnished then "Yes" else "No")) ∈ promptLines d am ∧
    ("- Pet Friendly: " ++ (if d.petFriendly then "Yes" else "No")) ∈ promptLines d am ∧
    ("- Amenities: " ++ renderAmenities am) ∈ promptLines d am := by
  refine ⟨fun a => rfl, rfl, rfl, ?_, ?_, ?_, ?_, ?_, ?_, ?_, ?_, ?_, ?_, ?_⟩ <;>
    simp [promptLines]

/-- C9: when the body's amenities field is absent (or not an array), the prompt
template's `.join` call throws before the fetch, and the handler answers the 500 error
response whatever the remote outcome would have been — even with every required field
present. -/
theorem missing_amenities_throws (d : RequestBody) (r : RemoteOutcome)
    (h : d.amenities = none) :
    handler d r = HandlerResult.err500 := by
  simp [handler, h]

/-- A body with every required field present but no amenities array. -/
def noAmenitiesBody : RequestBody :=
  { villaMiami with amenities := none }

/-- C9 witness: the 500 response at a concrete body whose six required fields are all
present and whose remote outcome would even have been a fully valid reply. -/
theorem missing_amenities_throws_witness :
    noAmenitiesBody.amenities = none ∧
    noAmenitiesBody.propertyType = "villa" ∧ noAmenitiesBody.bedrooms = "4" ∧
    noAmenitiesBody.bathrooms = "3" ∧ noAmenitiesBody.area = 2000 ∧
    noAmenitiesBody.city = "Miami" ∧ noAmenitiesBody.state = "FL" ∧
    handler noAmenitiesBody (RemoteOutcome.content (some jsonBadPrediction))
      = HandlerResult.err500 :=
  ⟨rfl, rfl, rfl, rfl, rfl, rfl, rfl,
    missing_amenities_throws noAmenitiesBody (RemoteOutcome.content (some jsonBadPrediction)) rfl⟩

/-- C10: a provided parkingSpaces of 0 is falsy in JS, so the template's
`${parkingSpaces || 'Not provided'}` renders the placeholder: the prompt for
parkingSpaces = 0 carries the "Parking Spaces: Not provided" line and is identical to
the prompt for an absent parkingSpaces. -/
theorem parking_zero_renders_not_provided (d : RequestBody) (am : List String) :
    renderOptNum (some 0) = "Not provided" ∧
    promptLines { d with parkingSpaces := some 0 } am
      = promptLines { d with parkingSpaces := none } am ∧
    "- Parking Spaces: Not provided" ∈ promptLines { d with parkingSpaces := some 0 } am := by
  have hline : ("- Parking Spaces: " ++ renderOptNum (some 0) : String)
      = "- Parking Spaces: Not provided" := rfl
  refine ⟨rfl, rfl, ?_⟩
  simp [promptLines, hline]

end Housify
